import Mathlib

/-!
Shallow embedding of the VesiKolay Pro photo pipeline
(src/photo_processor.py and src/app.py) together with proofs about its
unit conversion, crop planning, white-background compositing, file-size
optimisation loop, face-detection error handling and watermark sizing.

Python numbers are modelled by exact rationals; the Python built-ins
used by the code are modelled explicitly: truncation toward zero for
the built-in int conversion and floor division for the operator used
on integers.
-/

namespace VesiKolay

/-- Model of the Python builtin int() applied to a number: truncation
toward zero. -/
def pyInt (q : ℚ) : ℤ := if 0 ≤ q then ⌊q⌋ else ⌈q⌉

/-- Model of the Python floor-division operator on integers. -/
def pyFloorDiv (a b : ℤ) : ℤ := Int.fdiv a b

/-! ## CropDimensions (src/photo_processor.py lines 21-47) -/

/-- Embedding of the dataclass CropDimensions: width, height, a unit
string, the dpi and an optional minimum dpi. -/
structure CropDimensions where
  width : ℚ
  height : ℚ
  unit : String := "px"
  dpi : ℚ := 300
  min_dpi : Option ℚ := none

/-- Embedding of CropDimensions._mm_to_px:
int((mm / 25.4) * self.dpi). -/
def CropDimensions.mm_to_px (d : CropDimensions) (mm : ℚ) : ℤ :=
  pyInt ((mm / 25.4) * d.dpi)

/-- Embedding of CropDimensions._cm_to_px:
int((cm / 2.54) * self.dpi). -/
def CropDimensions.cm_to_px (d : CropDimensions) (cm : ℚ) : ℤ :=
  pyInt ((cm / 2.54) * d.dpi)

/-- Embedding of CropDimensions.to_pixels: dispatch on the unit string,
returning the stored values unchanged for the unit px and for any
unrecognised unit. -/
def CropDimensions.to_pixels (d : CropDimensions) : ℚ × ℚ :=
  if d.unit = "px" then (d.width, d.height)
  else if d.unit = "mm" then ((d.mm_to_px d.width : ℚ), (d.mm_to_px d.height : ℚ))
  else if d.unit = "cm" then ((d.cm_to_px d.width : ℚ), (d.cm_to_px d.height : ℚ))
  else (d.width, d.height)

/-- Embedding of the save-time dpi choice of
crop_image_with_white_background_optimized (src/photo_processor.py
lines 349-357): the metadata dpi is raised to min_dpi only when min_dpi
is set, truthy (nonzero) and larger than dpi. -/
def finalDpi (d : CropDimensions) : ℚ :=
  match d.min_dpi with
  | none => d.dpi
  | some m => if m ≠ 0 ∧ d.dpi < m then m else d.dpi

/-- pyInt agrees with the floor on nonnegative arguments. -/
theorem pyInt_eq_floor {q : ℚ} (h : 0 ≤ q) : pyInt q = ⌊q⌋ := if_pos h

/-! ## In-memory bitmaps (model of the PIL objects used by the code) -/

/-- A pixel colour. -/
structure RGB where
  r : ℕ
  g : ℕ
  b : ℕ
deriving DecidableEq

/-- The solid white used for the background canvas. -/
def white : RGB := ⟨255, 255, 255⟩

/-- An in-memory bitmap: a size and a pixel lookup. -/
structure PILImage where
  width : ℕ
  height : ℕ
  pixel : ℕ → ℕ → RGB

/-- A resampling kernel: given the source image and the requested size,
yields each output pixel. PIL always returns an image of exactly the
requested size; the Lanczos weights themselves are floating-point and
are kept abstract. -/
def Resample : Type := PILImage → ℕ → ℕ → ℕ → ℕ → RGB

/-- A sharpening kernel: the pixel transformation applied by
ImageEnhance.Sharpness(...).enhance(1.1), which keeps the size. -/
def Sharpen : Type := PILImage → ℕ → ℕ → RGB

/-- Model of Image.resize((w, h), LANCZOS): the result has exactly the
requested size; pixels come from the kernel. -/
def resize (R : Resample) (img : PILImage) (w h : ℕ) : PILImage :=
  ⟨w, h, fun i j => R img w h i j⟩

/-- Model of Image.new with a constant colour. -/
def imageNew (w h : ℕ) (c : RGB) : PILImage :=
  ⟨w, h, fun _ _ => c⟩

/-- Model of Image.crop((l, t, r, b)): size (r-l)×(b-t), pixels read at
the translated coordinates. -/
def cropBox (img : PILImage) (l t r b : ℤ) : PILImage :=
  ⟨(r - l).toNat, (b - t).toNat,
    fun i j => img.pixel (l + i).toNat (t + j).toNat⟩

/-- Model of base.paste(over, (px, py)): the base keeps its size; where
the translated overlay covers a base pixel the overlay wins, clipping
at the base border (negative offsets allowed, as in PIL). -/
def paste (base over : PILImage) (px py : ℤ) : PILImage :=
  ⟨base.width, base.height, fun i j =>
    if px ≤ (i : ℤ) ∧ (i : ℤ) < px + over.width ∧
       py ≤ (j : ℤ) ∧ (j : ℤ) < py + over.height
    then over.pixel ((i : ℤ) - px).toNat ((j : ℤ) - py).toNat
    else base.pixel i j⟩

/-- Model of ImageEnhance.Sharpness(img).enhance(1.1): same size,
pixels from the sharpening kernel. -/
def enhanceSharpness (S : Sharpen) (img : PILImage) : PILImage :=
  ⟨img.width, img.height, fun i j => S img i j⟩

/-! ## Crop-region planning (shared by crop_image,
crop_image_with_white_background and the optimized variant;
src/photo_processor.py lines 280-301 and 493-516) -/

/-- Embedding of the centre-crop computation used when no crop
coordinates are given: keep the full height (resp. width) and truncate
the other dimension to match the target aspect ratio, centring with
floor division. -/
def centerCropBox (ow oh tw th : ℕ) : ℤ × ℤ × ℤ × ℤ :=
  let ar : ℚ := (tw : ℚ) / (th : ℚ)
  if ar < (ow : ℚ) / (oh : ℚ) then
    let nw : ℤ := pyInt ((oh : ℚ) * ar)
    (pyFloorDiv ((ow : ℤ) - nw) 2, 0, nw, (oh : ℤ))
  else
    let nh : ℤ := pyInt ((ow : ℚ) / ar)
    (0, pyFloorDiv ((oh : ℤ) - nh) 2, (ow : ℤ), nh)

/-- Embedding of the bound clamping applied to the crop coordinates
(src/photo_processor.py lines 297-301). -/
def clampBox (ow oh : ℕ) (x y w h : ℤ) : ℤ × ℤ × ℤ × ℤ :=
  let x2 := max 0 (min x (ow : ℤ))
  let y2 := max 0 (min y (oh : ℤ))
  (x2, y2, min w ((ow : ℤ) - x2), min h ((oh : ℤ) - y2))

/-- The crop box actually used: the caller-supplied coordinates when
all four are present, the centre crop otherwise, both clamped. -/
def resolvedBox (ow oh tw th : ℕ)
    (ox oy oww ohh : Option ℤ) : ℤ × ℤ × ℤ × ℤ :=
  match ox, oy, oww, ohh with
  | some x, some y, some w, some h => clampBox ow oh x y w h
  | _, _, _, _ =>
    let r := centerCropBox ow oh tw th
    clampBox ow oh r.1 r.2.1 r.2.2.1 r.2.2.2

/-! ## White-background compositing
(crop_image_with_white_background_optimized,
src/photo_processor.py lines 254-339) -/

/-- Embedding of the aspect-fitting size computation of the optimized
white-background branch (src/photo_processor.py lines 321-328): when
the crop is proportionally wider than the target the height is matched
and the width scaled, and conversely. -/
def fitDims (cw ch tw th : ℕ) : ℤ × ℤ :=
  let tr : ℚ := (tw : ℚ) / (th : ℚ)
  let cr : ℚ := (cw : ℚ) / (ch : ℚ)
  if tr < cr then (pyInt ((th : ℚ) * cr), (th : ℤ))
  else ((tw : ℤ), pyInt ((tw : ℚ) / cr))

/-- Embedding of the image part of
crop_image_with_white_background_optimized: resolve the crop box, crop,
then either resize directly to the target (aspect nearly equal, or
white_background false) or resize by fitDims and paste centred onto a
white canvas of exactly the target size, and finally sharpen. -/
def composeOpt (R : Resample) (S : Sharpen) (img : PILImage)
    (ox oy oww ohh : Option ℤ) (tw th : ℕ) (whiteBg : Bool) : PILImage :=
  let box := resolvedBox img.width img.height tw th ox oy oww ohh
  let cropped := cropBox img box.1 box.2.1 (box.1 + box.2.2.1) (box.2.1 + box.2.2.2)
  let tr : ℚ := (tw : ℚ) / (th : ℚ)
  let cr : ℚ := (cropped.width : ℚ) / (cropped.height : ℚ)
  let finalImg :=
    if whiteBg then
      if |cr - tr| < 1 / 100 then
        resize R cropped tw th
      else
        let nd := fitDims cropped.width cropped.height tw th
        let resized := resize R cropped nd.1.toNat nd.2.toNat
        let px := pyFloorDiv ((tw : ℤ) - nd.1) 2
        let py := pyFloorDiv ((th : ℤ) - nd.2) 2
        paste (imageNew tw th white) resized px py
    else
      resize R cropped tw th
  enhanceSharpness S finalImg

/-- Embedding of the image part of crop_image (src/photo_processor.py
lines 459-526): resolve the crop box, crop, resize directly to the
target size, sharpen. -/
def cropImageResult (R : Resample) (S : Sharpen) (img : PILImage)
    (ox oy oww ohh : Option ℤ) (tw th : ℕ) : PILImage :=
  let box := resolvedBox img.width img.height tw th ox oy oww ohh
  let cropped := cropBox img box.1 box.2.1 (box.1 + box.2.2.1) (box.2.1 + box.2.2.2)
  enhanceSharpness S (resize R cropped tw th)

/-! ## Claim C1: exact output size -/

/-- Sharpening keeps the size. -/
theorem enhanceSharpness_width (S : Sharpen) (img : PILImage) :
    (enhanceSharpness S img).width = img.width := rfl

/-- Sharpening keeps the size. -/
theorem enhanceSharpness_height (S : Sharpen) (img : PILImage) :
    (enhanceSharpness S img).height = img.height := rfl

/-- C1: for every input image, crop region, target size and both values
of white_background, the composed bitmap of the optimized
white-background path has exactly the target pixel size, and so does
the plain crop_image path. -/
theorem c1_exact_target_size (R : Resample) (S : Sharpen) (img : PILImage)
    (ox oy oww ohh : Option ℤ) (tw th : ℕ) (whiteBg : Bool)
    (htw : 0 < tw) (hth : 0 < th) :
    ((composeOpt R S img ox oy oww ohh tw th whiteBg).width = tw ∧
     (composeOpt R S img ox oy oww ohh tw th whiteBg).height = th) ∧
    ((cropImageResult R S img ox oy oww ohh tw th).width = tw ∧
     (cropImageResult R S img ox oy oww ohh tw th).height = th) := by
  refine ⟨?_, ⟨rfl, rfl⟩⟩
  unfold composeOpt
  dsimp only
  split
  · split
    · exact ⟨rfl, rfl⟩
    · exact ⟨rfl, rfl⟩
  · exact ⟨rfl, rfl⟩

/-- Witness for c1_exact_target_size at a concrete 4×4 black image,
centre crop, 2×3 target with white background. -/
theorem c1_exact_target_size_witness :
    (composeOpt (fun _ _ _ _ _ => ⟨0, 0, 0⟩) (fun img i j => img.pixel i j)
        (imageNew 4 4 ⟨0, 0, 0⟩) none none none none 2 3 true).width = 2 ∧
    (composeOpt (fun _ _ _ _ _ => ⟨0, 0, 0⟩) (fun img i j => img.pixel i j)
        (imageNew 4 4 ⟨0, 0, 0⟩) none none none none 2 3 true).height = 3 :=
  (c1_exact_target_size (fun _ _ _ _ _ => ⟨0, 0, 0⟩) (fun img i j => img.pixel i j)
    (imageNew 4 4 ⟨0, 0, 0⟩) none none none none 2 3 true
    (by norm_num) (by norm_num)).1

/-! ## Claim C2: white-background compositing geometry -/

/-- C2 amended: when white_background is true and the cropped aspect
differs from the target aspect beyond the tolerance, the crop is
resized preserving its own aspect so that its short edge matches the
corresponding target edge while the other dimension is at least the
target dimension (a covering resize), and is then pasted centred with
clipping; the output is therefore filled by image pixels rather than
letterboxed, so its corners are in general not white. -/
theorem c2_cover_not_letterbox (cw ch tw th : ℕ)
    (hcw : 0 < cw) (hch : 0 < ch) (htw : 0 < tw) (hth : 0 < th) :
    ((tw : ℚ) / th < (cw : ℚ) / ch →
        (fitDims cw ch tw th).2 = th ∧ (tw : ℤ) ≤ (fitDims cw ch tw th).1) ∧
    ((cw : ℚ) / ch ≤ (tw : ℚ) / th →
        (fitDims cw ch tw th).1 = tw ∧ (th : ℤ) ≤ (fitDims cw ch tw th).2) := by
  have hch' : (0 : ℚ) < ch := by exact_mod_cast hch
  have hth' : (0 : ℚ) < th := by exact_mod_cast hth
  have hcw' : (0 : ℚ) < cw := by exact_mod_cast hcw
  constructor
  · intro hlt
    have hfit : fitDims cw ch tw th =
        (pyInt ((th : ℚ) * ((cw : ℚ) / ch)), (th : ℤ)) := by
      unfold fitDims
      rw [if_pos hlt]
    rw [hfit]
    refine ⟨rfl, ?_⟩
    rw [pyInt_eq_floor (by positivity)]
    refine Int.le_floor.mpr ?_
    push_cast
    have h1 : ((tw : ℚ) / th) * th < ((cw : ℚ) / ch) * th :=
      mul_lt_mul_of_pos_right hlt hth'
    rw [div_mul_cancel₀ _ (ne_of_gt hth')] at h1
    linarith [h1]
  · intro hle
    have hfit : fitDims cw ch tw th =
        ((tw : ℤ), pyInt ((tw : ℚ) / ((cw : ℚ) / ch))) := by
      unfold fitDims
      rw [if_neg (not_lt.mpr hle)]
    rw [hfit]
    refine ⟨rfl, ?_⟩
    have hcr : (0 : ℚ) < (cw : ℚ) / ch := by positivity
    rw [pyInt_eq_floor (by positivity)]
    refine Int.le_floor.mpr ?_
    push_cast
    rw [le_div_iff hcr]
    have h1 : (th : ℚ) * ((cw : ℚ) / ch) ≤ (th : ℚ) * ((tw : ℚ) / th) :=
      mul_le_mul_of_nonneg_left hle (le_of_lt hth')
    rw [mul_div_cancel₀ _ (ne_of_gt hth')] at h1
    linarith [h1]

/-- Witness for c2_cover_not_letterbox on a 200×100 crop against a
100×100 target: the fitted size is 200×100, covering the target. -/
theorem c2_cover_not_letterbox_witness :
    (fitDims 200 100 100 100).2 = 100 ∧ (100 : ℤ) ≤ (fitDims 200 100 100 100).1 :=
  (c2_cover_not_letterbox 200 100 100 100
    (by norm_num) (by norm_num) (by norm_num) (by norm_num)).1 (by norm_num)

/-- Constant-black resampling kernel: the behaviour of any
weight-normalised resampling filter (Lanczos included) on an all-black
source image. -/
def blackKernel : Resample := fun _ _ _ _ _ => ⟨0, 0, 0⟩

/-- Pass-through sharpening kernel: the behaviour of the mild sharpen
on a constant image. -/
def copySharpen : Sharpen := fun img i j => img.pixel i j

/-- An all-black 200×100 source image. -/
def blackWide : PILImage := imageNew 200 100 ⟨0, 0, 0⟩

/-- Evaluation of fitDims on the counterexample input: the resized
width 200 overflows the 100-pixel-wide target. -/
theorem fitDims_eval_200 : fitDims 200 100 100 100 = (200, 100) := by
  unfold fitDims
  rw [if_pos (by norm_num :
    ((100 : ℕ) : ℚ) / ((100 : ℕ) : ℚ) < ((200 : ℕ) : ℚ) / ((100 : ℕ) : ℚ))]
  rw [pyInt, if_pos (by norm_num :
    (0 : ℚ) ≤ ((100 : ℕ) : ℚ) * (((200 : ℕ) : ℚ) / ((100 : ℕ) : ℚ)))]
  norm_num

/-- Evaluation of the resolved crop box on the counterexample input. -/
theorem resolvedBox_eval_200 :
    resolvedBox blackWide.width blackWide.height 100 100
      (some 0) (some 0) (some 200) (some 100) = (0, 0, 200, 100) := by
  show resolvedBox 200 100 100 100 (some 0) (some 0) (some 200) (some 100) =
    (0, 0, 200, 100)
  unfold resolvedBox clampBox
  norm_num

/-- Evaluation of the crop on the counterexample input. -/
theorem cropBox_eval_200 :
    cropBox blackWide 0 0 (0 + 200) (0 + 100) =
      ⟨200, 100, fun i j => blackWide.pixel (0 + (i : ℤ)).toNat (0 + (j : ℤ)).toNat⟩ := by
  unfold cropBox
  norm_num
  decide

/-- C2 counterexample: for an all-black 200×100 source cropped to its
full extent and composed onto a 100×100 target with
white_background=true, the aspect ratios differ beyond tolerance, yet
the fitted width 200 exceeds the target width (the resize does not fit
within the target), and the output corner pixel (0,0) is black, not
pure white. -/
theorem c2_corner_counterexample :
    ¬ ((fitDims 200 100 100 100).1 ≤ 100) ∧
    (composeOpt blackKernel copySharpen blackWide
        (some 0) (some 0) (some 200) (some 100) 100 100 true).pixel 0 0 ≠ white := by
  constructor
  · rw [fitDims_eval_200]
    norm_num
  · unfold composeOpt
    rw [resolvedBox_eval_200]
    dsimp only
    rw [cropBox_eval_200]
    dsimp only
    rw [if_pos rfl]
    rw [if_neg (by norm_num)]
    rw [fitDims_eval_200]
    dsimp only
    decide

/-! ## Claim C7: centre-crop planning with zero faces -/

/-- C7 amended: with no faces, the planned crop is centred, keeps the
full source height (when the source is proportionally wider than the
target, the case of the counterexample) or the full source width
(otherwise), and truncates the matching dimension with the Python int
conversion; the crop aspect ratio therefore matches the target aspect
only up to a one-pixel truncation error (strictly less than 1/oh in
the wider case), not up to floating tolerance. -/
theorem c7_center_crop_truncated (ow oh tw th : ℕ)
    (how : 0 < ow) (hoh : 0 < oh) (htw : 0 < tw) (hth : 0 < th) :
    ((tw : ℚ) / th < (ow : ℚ) / oh →
        centerCropBox ow oh tw th =
          (pyFloorDiv ((ow : ℤ) - ⌊(oh : ℚ) * ((tw : ℚ) / th)⌋) 2, 0,
           ⌊(oh : ℚ) * ((tw : ℚ) / th)⌋, (oh : ℤ)) ∧
        ((⌊(oh : ℚ) * ((tw : ℚ) / th)⌋ : ℚ) / oh ≤ (tw : ℚ) / th ∧
         (tw : ℚ) / th - (⌊(oh : ℚ) * ((tw : ℚ) / th)⌋ : ℚ) / oh < 1 / oh)) ∧
    ((ow : ℚ) / oh ≤ (tw : ℚ) / th →
        centerCropBox ow oh tw th =
          (0, pyFloorDiv ((oh : ℤ) - ⌊(ow : ℚ) / ((tw : ℚ) / th)⌋) 2,
           (ow : ℤ), ⌊(ow : ℚ) / ((tw : ℚ) / th)⌋) ∧
        ((⌊(ow : ℚ) / ((tw : ℚ) / th)⌋ : ℚ) ≤ (ow : ℚ) / ((tw : ℚ) / th) ∧
         (ow : ℚ) / ((tw : ℚ) / th) - (⌊(ow : ℚ) / ((tw : ℚ) / th)⌋ : ℚ) < 1)) := by
  have hoh' : (0 : ℚ) < oh := by exact_mod_cast hoh
  constructor
  · intro hlt
    constructor
    · unfold centerCropBox
      rw [if_pos hlt, pyInt_eq_floor (by positivity)]
    · constructor
      · rw [div_le_iff hoh']
        calc ((⌊(oh : ℚ) * ((tw : ℚ) / th)⌋ : ℚ)) ≤ (oh : ℚ) * ((tw : ℚ) / th) :=
              Int.floor_le _
          _ = (tw : ℚ) / th * oh := by ring
      · rw [sub_lt_iff_lt_add, div_add_div_same, lt_div_iff hoh']
        calc (tw : ℚ) / th * oh = (oh : ℚ) * ((tw : ℚ) / th) := by ring
          _ < ⌊(oh : ℚ) * ((tw : ℚ) / th)⌋ + 1 := Int.lt_floor_add_one _
          _ = 1 + (⌊(oh : ℚ) * ((tw : ℚ) / th)⌋ : ℚ) := by ring
  · intro hle
    constructor
    · unfold centerCropBox
      rw [if_neg (not_lt.mpr hle), pyInt_eq_floor (by positivity)]
    · exact ⟨Int.floor_le _, by linarith [Int.lt_floor_add_one ((ow : ℚ) / ((tw : ℚ) / th))]⟩

/-- Witness for c7_center_crop_truncated at a 100×10 source with a
155×100 target: the planned crop is the centred 15×10 rectangle, and
its aspect ratio 1.5 is below the target 1.55 by less than 1/10. -/
theorem c7_center_crop_truncated_witness :
    centerCropBox 100 10 155 100 = (42, 0, 15, 10) ∧
    ((155 : ℚ) / 100 - (15 : ℚ) / 10 < 1 / 10) := by
  have h := (c7_center_crop_truncated 100 10 155 100
    (by norm_num) (by norm_num) (by norm_num) (by norm_num)).1 (by norm_num)
  have hfl : ⌊((10 : ℕ) : ℚ) * (((155 : ℕ) : ℚ) / ((100 : ℕ) : ℚ))⌋ = 15 := by
    norm_num
  constructor
  · rw [h.1, hfl]
    decide
  · have h2 := h.2.2
    rw [hfl] at h2
    push_cast at h2 ⊢
    convert h2 using 2

/-- C7 counterexample: at a 100×10 source and 155×100 target the
planned crop is 15×10, whose aspect ratio differs from the target
aspect by exactly 1/20, which is not within any floating tolerance
(not even within 1/1000000). -/
theorem c7_aspect_counterexample :
    centerCropBox 100 10 155 100 = (42, 0, 15, 10) ∧
    |(15 : ℚ) / 10 - (155 : ℚ) / 100| = 1 / 20 ∧
    ¬ (|(15 : ℚ) / 10 - (155 : ℚ) / 100| < 1 / 1000000) := by
  have habs : |(15 : ℚ) / 10 - (155 : ℚ) / 100| = 1 / 20 := by
    rw [abs_sub_comm, abs_of_pos (by norm_num)]
    norm_num
  refine ⟨?_, habs, by rw [habs]; norm_num⟩
  unfold centerCropBox
  rw [if_pos (by norm_num :
    ((155 : ℕ) : ℚ) / ((100 : ℕ) : ℚ) < ((100 : ℕ) : ℚ) / ((10 : ℕ) : ℚ))]
  have hnw : pyInt (((10 : ℕ) : ℚ) * (((155 : ℕ) : ℚ) / ((100 : ℕ) : ℚ))) = 15 := by
    rw [pyInt, if_pos (by norm_num)]
    norm_num
  rw [hnw]
  decide

/-! ## Claims C3, C4, C10: unit conversion -/

/-- C3 counterexample: for a 33 mm dimension at 300 dpi the code
computes int(33/25.4*300) = 389 pixels, while rounding to the nearest
integer, as the claim states, would give 390. -/
theorem c3_mm_round_counterexample :
    (CropDimensions.to_pixels ⟨33, 45, "mm", 300, none⟩).1 = 389 ∧
    round ((33 : ℚ) / 25.4 * 300) = 390 ∧
    (CropDimensions.to_pixels ⟨33, 45, "mm", 300, none⟩).1 ≠
      ((round ((33 : ℚ) / 25.4 * 300) : ℤ) : ℚ) := by
  have h1 : (CropDimensions.to_pixels ⟨33, 45, "mm", 300, none⟩).1 = 389 := by
    norm_num [CropDimensions.to_pixels, CropDimensions.mm_to_px, pyInt]
    decide
  have h2 : round ((33 : ℚ) / 25.4 * 300) = 390 := by
    rw [round_eq]; norm_num
  refine ⟨h1, h2, ?_⟩
  rw [h1, h2]; norm_num

/-- C3 amended: for mm (resp. cm) specs with nonnegative width, height
and dpi, the resolved pixel sizes are the floor (Python int truncation)
of width/25.4*dpi resp. width/2.54*dpi, not the nearest integer. -/
theorem c3_mm_cm_truncate (d : CropDimensions)
    (hw : 0 ≤ d.width) (hh : 0 ≤ d.height) (hd : 0 ≤ d.dpi) :
    (d.unit = "mm" →
      d.to_pixels = (((⌊d.width / 25.4 * d.dpi⌋ : ℤ) : ℚ),
                     ((⌊d.height / 25.4 * d.dpi⌋ : ℤ) : ℚ))) ∧
    (d.unit = "cm" →
      d.to_pixels = (((⌊d.width / 2.54 * d.dpi⌋ : ℤ) : ℚ),
                     ((⌊d.height / 2.54 * d.dpi⌋ : ℤ) : ℚ))) := by
  have hmw : 0 ≤ d.width / 25.4 * d.dpi := by positivity
  have hmh : 0 ≤ d.height / 25.4 * d.dpi := by positivity
  have hcw : 0 ≤ d.width / 2.54 * d.dpi := by positivity
  have hch : 0 ≤ d.height / 2.54 * d.dpi := by positivity
  constructor
  · intro hu
    simp [CropDimensions.to_pixels, hu, CropDimensions.mm_to_px,
      pyInt_eq_floor, hmw, hmh]
  · intro hu
    simp [CropDimensions.to_pixels, hu, CropDimensions.cm_to_px,
      pyInt_eq_floor, hcw, hch]

/-- Witness for c3_mm_cm_truncate at the default 35×45 mm, 300 dpi
spec: truncation yields 413×531 pixels. -/
theorem c3_mm_cm_truncate_witness :
    CropDimensions.to_pixels ⟨35, 45, "mm", 300, none⟩ = (413, 531) := by
  have h := (c3_mm_cm_truncate ⟨35, 45, "mm", 300, none⟩
    (by norm_num) (by norm_num) (by norm_num)).1 rfl
  rw [h]
  norm_num

/-- C4 counterexample: a 35×45 mm spec at dpi 300 with min_dpi 400
resolves to 413 pixels wide (computed from dpi 300), although the same
spec computed at the raised dpi 400 would give 551, while the save-time
metadata dpi is indeed raised to 400: the min_dpi raise does not happen
before pixel-size computation. -/
theorem c4_min_dpi_counterexample :
    (CropDimensions.to_pixels ⟨35, 45, "mm", 300, some 400⟩).1 = 413 ∧
    (CropDimensions.to_pixels ⟨35, 45, "mm", 400, some 400⟩).1 = 551 ∧
    finalDpi ⟨35, 45, "mm", 300, some 400⟩ = 400 := by
  refine ⟨?_, ?_, ?_⟩
  · norm_num [CropDimensions.to_pixels, CropDimensions.mm_to_px, pyInt]
    decide
  · norm_num [CropDimensions.to_pixels, CropDimensions.mm_to_px, pyInt]
    decide
  · norm_num [finalDpi]

/-- C4 amended: when min_dpi is set, nonzero and above dpi, only the
save-time metadata dpi is raised to min_dpi; the pixel-size computation
ignores min_dpi entirely, for every unit. -/
theorem c4_min_dpi_metadata_only (d : CropDimensions) (m : ℚ)
    (hm : d.min_dpi = some m) (h0 : m ≠ 0) (hlt : d.dpi < m) :
    finalDpi d = m ∧
    ∀ x : Option ℚ, CropDimensions.to_pixels { d with min_dpi := x } = d.to_pixels := by
  constructor
  · simp [finalDpi, hm, h0, hlt]
  · intro x
    rfl

/-- Witness for c4_min_dpi_metadata_only at the 35×45 mm, 300 dpi,
min_dpi 400 spec. -/
theorem c4_min_dpi_metadata_only_witness :
    finalDpi ⟨35, 45, "mm", 300, some 400⟩ = 400 ∧
    CropDimensions.to_pixels ⟨35, 45, "mm", 300, none⟩ =
      CropDimensions.to_pixels ⟨35, 45, "mm", 300, some 400⟩ := by
  have h := c4_min_dpi_metadata_only ⟨35, 45, "mm", 300, some 400⟩ 400
    rfl (by norm_num) (by norm_num)
  exact ⟨h.1, h.2 none⟩

/-- C10: an unrecognised unit string falls back to returning the stored
width and height unchanged, without raising an error. -/
theorem c10_unknown_unit_passthrough (d : CropDimensions)
    (h1 : d.unit ≠ "px") (h2 : d.unit ≠ "mm") (h3 : d.unit ≠ "cm") :
    d.to_pixels = (d.width, d.height) := by
  simp [CropDimensions.to_pixels, h1, h2, h3]

/-- Witness for c10_unknown_unit_passthrough at the unit string inch. -/
theorem c10_unknown_unit_passthrough_witness :
    CropDimensions.to_pixels ⟨300, 400, "inch", 300, none⟩ = (300, 400) :=
  c10_unknown_unit_passthrough ⟨300, 400, "inch", 300, none⟩
    (by decide) (by decide) (by decide)

/-! ## File-size optimisation (VesiKolayApp.optimize_file_size,
src/app.py lines 3855-3916) -/

/-- Embedding of the quality-decrement loop: while the size exceeds
max_bytes and the quality exceeds 20, decrement the quality by 5,
re-encode and re-measure. The abstract state type C stands for the
file contents on disk; save re-encodes at a quality and sz measures
the byte size. Returns the final contents, the final quality and the
number of passes. -/
def shrinkLoop {C : Type} (save : C → ℤ → C) (sz : C → ℕ) (maxBytes : ℕ)
    (c : C) (q : ℤ) : C × ℤ × ℕ :=
  if h : maxBytes < sz c ∧ 20 < q then
    let r := shrinkLoop save sz maxBytes (save c (q - 5)) (q - 5)
    (r.1, r.2.1, r.2.2 + 1)
  else (c, q, 0)
termination_by (q - 20).toNat
decreasing_by
  simp_wf
  omega

/-- Invariant of the quality-decrement loop: starting at quality at
least 20, the loop ends with quality at least 20, having removed
exactly 5 per pass, and with the size within budget or the quality at
the lower bound. -/
theorem shrinkLoop_spec {C : Type} (save : C → ℤ → C) (sz : C → ℕ)
    (maxBytes : ℕ) :
    ∀ (n : ℕ) (c : C) (q : ℤ), (q - 20).toNat ≤ n → 20 ≤ q → 5 ∣ q →
      20 ≤ (shrinkLoop save sz maxBytes c q).2.1 ∧
      (shrinkLoop save sz maxBytes c q).2.1 =
        q - 5 * ((shrinkLoop save sz maxBytes c q).2.2 : ℤ) ∧
      (sz (shrinkLoop save sz maxBytes c q).1 ≤ maxBytes ∨
        (shrinkLoop save sz maxBytes c q).2.1 ≤ 20) := by
  intro n
  induction n with
  | zero =>
    intro c q hle hq hdvd
    rw [shrinkLoop, dif_neg (by omega)]
    exact ⟨hq, by simp, Or.inr (by show q ≤ 20; omega)⟩
  | succ n ih =>
    intro c q hle hq hdvd
    rw [shrinkLoop]
    by_cases h : maxBytes < sz c ∧ 20 < q
    · rw [dif_pos h]
      have hrec := ih (save c (q - 5)) (q - 5) (by omega) (by omega) (by omega)
      dsimp only
      refine ⟨hrec.1, ?_, ?_⟩
      · have h2 := hrec.2.1
        push_cast
        push_cast at h2
        omega
      · exact hrec.2.2
    · rw [dif_neg h]
      refine ⟨hq, by simp, ?_⟩
      rcases not_and_or.mp h with h1 | h2
      · exact Or.inl (by show sz c ≤ maxBytes; omega)
      · exact Or.inr (by show q ≤ 20; omega)

/-- C5: on an oversized file with budget max_kb and starting quality
85, the loop removes 5 quality per pass, makes at most 13 passes and
ends with the size at most max_kb·1024 bytes or the quality exactly
20. -/
theorem c5_shrink_loop_bounded {C : Type} (save : C → ℤ → C) (sz : C → ℕ)
    (maxKb : ℕ) (c : C) (hbig : maxKb * 1024 < sz c) :
    (shrinkLoop save sz (maxKb * 1024) c 85).2.2 ≤ 13 ∧
    (shrinkLoop save sz (maxKb * 1024) c 85).2.1 =
      85 - 5 * ((shrinkLoop save sz (maxKb * 1024) c 85).2.2 : ℤ) ∧
    (sz (shrinkLoop save sz (maxKb * 1024) c 85).1 ≤ maxKb * 1024 ∨
      (shrinkLoop save sz (maxKb * 1024) c 85).2.1 = 20) := by
  obtain ⟨h1, h2, h3⟩ :=
    shrinkLoop_spec save sz (maxKb * 1024) 65 c 85 (by omega) (by omega) (by omega)
  refine ⟨by omega, h2, ?_⟩
  rcases h3 with h3 | h3
  · exact Or.inl h3
  · exact Or.inr (by omega)

/-- Witness for c5_shrink_loop_bounded: a 500 KB file against a 150 KB
budget, with a re-encoder that produces a 100-byte file. -/
theorem c5_shrink_loop_bounded_witness :
    (shrinkLoop (fun (_ : ℕ) (_ : ℤ) => 100) (fun n => n) (150 * 1024) 512000 85).2.2 ≤ 13 ∧
    (shrinkLoop (fun (_ : ℕ) (_ : ℤ) => 100) (fun n => n) (150 * 1024) 512000 85).2.1 =
      85 - 5 * ((shrinkLoop (fun (_ : ℕ) (_ : ℤ) => 100) (fun n => n) (150 * 1024) 512000 85).2.2 : ℤ) ∧
    ((fun n => n) (shrinkLoop (fun (_ : ℕ) (_ : ℤ) => 100) (fun n => n) (150 * 1024) 512000 85).1 ≤ 150 * 1024 ∨
      (shrinkLoop (fun (_ : ℕ) (_ : ℤ) => 100) (fun n => n) (150 * 1024) 512000 85).2.1 = 20) :=
  c5_shrink_loop_bounded (fun _ _ => 100) (fun n => n) 150 512000 (by norm_num)

/-- Embedding of optimize_file_size: if the current size is already in
[min_kb·1024, max_kb·1024] return success without re-encoding;
otherwise run the quality-decrement loop and, if the result is too
small and the quality was lowered, re-encode once at quality
min(95, quality+20); the function then returns success either way. -/
def optimizeFileSize {C : Type} (save : C → ℤ → C) (sz : C → ℕ)
    (minKb maxKb : ℕ) (quality : ℤ) (c : C) : Bool × C :=
  let minBytes := minKb * 1024
  let maxBytes := maxKb * 1024
  if minBytes ≤ sz c ∧ sz c ≤ maxBytes then (true, c)
  else
    let r := shrinkLoop save sz maxBytes c quality
    let c2 :=
      if sz r.1 < minBytes ∧ r.2.1 < quality then save r.1 (min 95 (r.2.1 + 20))
      else r.1
    (true, c2)

/-- C6: on a file already inside the byte budget the optimizer returns
success and leaves the contents untouched, so a second call on the
result is also the identity: optimisation is idempotent on in-range
inputs. -/
theorem c6_in_range_no_reencode {C : Type} (save : C → ℤ → C) (sz : C → ℕ)
    (minKb maxKb : ℕ) (quality : ℤ) (c : C)
    (h1 : minKb * 1024 ≤ sz c) (h2 : sz c ≤ maxKb * 1024) :
    optimizeFileSize save sz minKb maxKb quality c = (true, c) ∧
    optimizeFileSize save sz minKb maxKb quality
      (optimizeFileSize save sz minKb maxKb quality c).2 = (true, c) := by
  have hfirst : optimizeFileSize save sz minKb maxKb quality c = (true, c) := by
    unfold optimizeFileSize
    rw [if_pos ⟨h1, h2⟩]
  refine ⟨hfirst, ?_⟩
  rw [hfirst]
  exact hfirst

/-- Witness for c6_in_range_no_reencode: a 100000-byte file against
the 20-150 KB budget. -/
theorem c6_in_range_no_reencode_witness :
    optimizeFileSize (fun (_ : ℕ) (_ : ℤ) => 0) (fun n => n) 20 150 85 100000 =
      (true, 100000) ∧
    optimizeFileSize (fun (_ : ℕ) (_ : ℤ) => 0) (fun n => n) 20 150 85
      (optimizeFileSize (fun (_ : ℕ) (_ : ℤ) => 0) (fun n => n) 20 150 85 100000).2 =
      (true, 100000) :=
  c6_in_range_no_reencode (fun _ _ => 0) (fun n => n) 20 150 85 100000
    (by norm_num) (by norm_num)

/-! ## Face detection (PhotoProcessor.detect_faces,
src/photo_processor.py lines 73-106) -/

/-- Embedding of detect_faces. The cascade is optional (loading may
have failed in __init__); cv2.imread yields no image for an unreadable
or corrupt file; the detector body may raise, modelled by Except, and
the surrounding handler turns every exception into the empty list. -/
def detect_faces (cascade : Option Unit) (image : Option PILImage)
    (detector : PILImage → Except String (List (ℤ × ℤ × ℤ × ℤ))) :
    List (ℤ × ℤ × ℤ × ℤ) :=
  match cascade with
  | none => []
  | some _ =>
    match image with
    | none => []
    | some img =>
      match detector img with
      | Except.ok faces => faces
      | Except.error _ => []

/-- C8: the face locator always returns a list and never propagates a
failure: a missing cascade yields the empty list, an unreadable image
yields the empty list, a raising detector yields the empty list, and
otherwise the detector's list is returned unchanged. -/
theorem c8_detect_faces_never_raises (cascade : Option Unit)
    (image : Option PILImage)
    (detector : PILImage → Except String (List (ℤ × ℤ × ℤ × ℤ))) :
    (cascade = none → detect_faces cascade image detector = []) ∧
    (image = none → detect_faces cascade image detector = []) ∧
    (∀ img e, image = some img → detector img = Except.error e →
      detect_faces cascade image detector = []) ∧
    (∀ img faces, cascade ≠ none → image = some img →
      detector img = Except.ok faces →
      detect_faces cascade image detector = faces) := by
  refine ⟨?_, ?_, ?_, ?_⟩
  · intro h
    rw [h]
    rfl
  · intro h
    rw [h]
    cases cascade <;> rfl
  · intro img e himg herr
    rw [himg]
    cases cascade with
    | none => rfl
    | some u => simp [detect_faces, herr]
  · intro img faces hc himg hok
    rw [himg]
    cases cascade with
    | none => exact absurd rfl hc
    | some u => simp [detect_faces, hok]

/-- Witness for c8_detect_faces_never_raises: with no cascade loaded
the result is the empty list. -/
theorem c8_detect_faces_never_raises_witness :
    detect_faces none (some (imageNew 1 1 white)) (fun _ => Except.ok []) = [] :=
  (c8_detect_faces_never_raises none (some (imageNew 1 1 white))
    (fun _ => Except.ok [])).1 rfl

/-! ## Watermark font size (VesiKolayApp.apply_watermark_to_photo,
src/app.py line 3951) -/

/-- Embedding of the watermark font-size computation:
max(20, min(img.width, img.height) // 30). -/
def watermarkFontSize (w h : ℕ) : ℕ := max 20 (min w h / 30)

/-- C9 counterexample: on a 300×300 image the font size is 20, not
min(width, height)/30 = 10: the formula is clamped from below at 20,
so the size is not proportional to min/30 for small images. -/
theorem c9_font_size_counterexample :
    watermarkFontSize 300 300 = 20 ∧ min 300 300 / 30 = 10 ∧ (20 : ℕ) ≠ 10 := by
  refine ⟨by decide, by decide, by decide⟩

/-- C9 amended: the font size is max(20, min(width, height) // 30),
i.e. the floor-divided min/30 clamped below at 20: for images whose
short side is at least 600 it equals min/30 exactly, and below 630 it
is the constant 20. -/
theorem c9_font_size_clamped (w h : ℕ) :
    20 ≤ watermarkFontSize w h ∧
    (600 ≤ min w h → watermarkFontSize w h = min w h / 30) ∧
    (min w h < 630 → watermarkFontSize w h = 20) := by
  unfold watermarkFontSize
  refine ⟨le_max_left _ _, ?_, ?_⟩
  · intro h6
    exact max_eq_right (by omega)
  · intro h6
    exact max_eq_left (by omega)

/-- Witness for c9_font_size_clamped at a 3000×3000 image: the font
size is 3000/30 = 100. -/
theorem c9_font_size_clamped_witness :
    watermarkFontSize 3000 3000 = 100 := by
  rw [(c9_font_size_clamped 3000 3000).2.1 (by norm_num)]
  decide

end VesiKolay
